import Mathlib

/-!
Shallow embedding of the graph-based job compiler and execution orchestrator
of `src/backend/comfyui_client.py` (class `ComfyUIClient`), together with
theorems settling the frozen claims about it.

Conventions of the embedding:
* Python dicts with a fixed key set become Lean structures; open-keyed dicts
  (workflow graphs, node inputs, history outputs) become association lists
  `List (String × _)` preserving insertion order.
* Python ints are `Nat` (all values involved are nonnegative), float literals
  are `Rat` (they are only carried, never computed with).
* `random.randint(0, 2**31 - 1)` is modelled by an explicit `drawn` argument:
  the value the generator would produce at that call site.
* `async` network calls become explicit oracle arguments (`SubmitFn`, the
  event list, the history) so that the control flow of `generate_image`
  is a pure function of the engine's responses.
-/

namespace FluxStudio

/-- Value of one node-input slot in a workflow graph: a string literal, a
nonnegative integer literal, a float literal (modelled as a rational), or a
reference `[sourceNodeName, outputSlotIndex]` to another node of the graph. -/
inductive InputVal where
  | str : String → InputVal
  | nat : Nat → InputVal
  | rat : Rat → InputVal
  | ref : String → Nat → InputVal
deriving DecidableEq, Repr

/-- One node of a workflow graph: its `class_type` and its named inputs,
in insertion order. -/
structure NodeSpec where
  class_type : String
  inputs : List (String × InputVal)
deriving DecidableEq, Repr

/-- A workflow graph: mapping from node name to node spec, insertion-ordered. -/
abbrev Workflow := List (String × NodeSpec)

/-- Embedding of `create_flux2_workflow` (comfyui_client.py lines 49-155):
the standard Flux 2 workflow with `UNETLoader` and `ModelSamplingFlux`.
`drawn` is the value `random.randint(0, 2**31 - 1)` would return when
`seed` is `none`. -/
def create_flux2_workflow (prompt : String) (width height steps : Nat)
    (guidance : Rat) (seed : Option Nat) (drawn : Nat) : Workflow :=
  let seedVal := match seed with
    | none => drawn
    | some s => s
  [ (("load_unet"),
     { class_type := ("UNETLoader"),
       inputs := [ (("unet_name"), .str ("flux2_dev_fp8mixed.safetensors")),
                   (("weight_dtype"), .str ("fp8_e4m3fn")) ] }),
    (("load_clip"),
     { class_type := ("CLIPLoader"),
       inputs := [ (("clip_name"), .str ("mistral_3_small_flux2_fp8.safetensors")),
                   (("type"), .str ("flux2")) ] }),
    (("load_vae"),
     { class_type := ("VAELoader"),
       inputs := [ (("vae_name"), .str ("flux2-vae.safetensors")) ] }),
    (("clip_encode"),
     { class_type := ("CLIPTextEncode"),
       inputs := [ (("text"), .str prompt),
                   (("clip"), .ref ("load_clip") 0) ] }),
    (("clip_encode_negative"),
     { class_type := ("CLIPTextEncode"),
       inputs := [ (("text"), .str ("")),
                   (("clip"), .ref ("load_clip") 0) ] }),
    (("empty_latent"),
     { class_type := ("EmptySD3LatentImage"),
       inputs := [ (("width"), .nat width),
                   (("height"), .nat height),
                   (("batch_size"), .nat 1) ] }),
    (("model_sampling"),
     { class_type := ("ModelSamplingFlux"),
       inputs := [ (("model"), .ref ("load_unet") 0),
                   (("max_shift"), .rat (23/20)),
                   (("base_shift"), .rat (1/2)),
                   (("width"), .nat width),
                   (("height"), .nat height) ] }),
    (("sampler"),
     { class_type := ("KSampler"),
       inputs := [ (("model"), .ref ("model_sampling") 0),
                   (("positive"), .ref ("clip_encode") 0),
                   (("negative"), .ref ("clip_encode_negative") 0),
                   (("latent_image"), .ref ("empty_latent") 0),
                   (("seed"), .nat seedVal),
                   (("steps"), .nat steps),
                   (("cfg"), .rat guidance),
                   (("sampler_name"), .str ("euler")),
                   (("scheduler"), .str ("simple")),
                   (("denoise"), .rat 1) ] }),
    (("vae_decode"),
     { class_type := ("VAEDecode"),
       inputs := [ (("samples"), .ref ("sampler") 0),
                   (("vae"), .ref ("load_vae") 0) ] }),
    (("save_image"),
     { class_type := ("SaveImage"),
       inputs := [ (("images"), .ref ("vae_decode") 0),
                   (("filename_prefix"), .str ("flux_gen")) ] }) ]

/-- Embedding of `create_flux2_workflow_gguf` (lines 157-254): the quantized
variant with `UnetLoaderGGUF`, otherwise the same shape as the standard one. -/
def create_flux2_workflow_gguf (prompt : String) (width height steps : Nat)
    (guidance : Rat) (seed : Option Nat) (drawn : Nat) : Workflow :=
  let seedVal := match seed with
    | none => drawn
    | some s => s
  [ (("load_unet_gguf"),
     { class_type := ("UnetLoaderGGUF"),
       inputs := [ (("unet_name"), .str ("flux2-dev-Q5_K_M.gguf")) ] }),
    (("load_clip"),
     { class_type := ("CLIPLoader"),
       inputs := [ (("clip_name"), .str ("mistral_3_small_flux2_bf16.safetensors")),
                   (("type"), .str ("flux2")) ] }),
    (("load_vae"),
     { class_type := ("VAELoader"),
       inputs := [ (("vae_name"), .str ("flux2-vae.safetensors")) ] }),
    (("clip_encode"),
     { class_type := ("CLIPTextEncode"),
       inputs := [ (("text"), .str prompt),
                   (("clip"), .ref ("load_clip") 0) ] }),
    (("clip_encode_negative"),
     { class_type := ("CLIPTextEncode"),
       inputs := [ (("text"), .str ("")),
                   (("clip"), .ref ("load_clip") 0) ] }),
    (("empty_latent"),
     { class_type := ("EmptySD3LatentImage"),
       inputs := [ (("width"), .nat width),
                   (("height"), .nat height),
                   (("batch_size"), .nat 1) ] }),
    (("model_sampling"),
     { class_type := ("ModelSamplingFlux"),
       inputs := [ (("model"), .ref ("load_unet_gguf") 0),
                   (("max_shift"), .rat (23/20)),
                   (("base_shift"), .rat (1/2)),
                   (("width"), .nat width),
                   (("height"), .nat height) ] }),
    (("sampler"),
     { class_type := ("KSampler"),
       inputs := [ (("model"), .ref ("model_sampling") 0),
                   (("positive"), .ref ("clip_encode") 0),
                   (("negative"), .ref ("clip_encode_negative") 0),
                   (("latent_image"), .ref ("empty_latent") 0),
                   (("seed"), .nat seedVal),
                   (("steps"), .nat steps),
                   (("cfg"), .rat guidance),
                   (("sampler_name"), .str ("euler")),
                   (("scheduler"), .str ("simple")),
                   (("denoise"), .rat 1) ] }),
    (("vae_decode"),
     { class_type := ("VAEDecode"),
       inputs := [ (("samples"), .ref ("sampler") 0),
                   (("vae"), .ref ("load_vae") 0) ] }),
    (("save_image"),
     { class_type := ("SaveImage"),
       inputs := [ (("images"), .ref ("vae_decode") 0),
                   (("filename_prefix"), .str ("flux_gen")) ] }) ]

/-- Embedding of `create_flux2_workflow_simple` (lines 256-344): the simple
variant without `ModelSamplingFlux`; the sampler consumes the loader output
directly. -/
def create_flux2_workflow_simple (prompt : String) (width height steps : Nat)
    (guidance : Rat) (seed : Option Nat) (drawn : Nat) : Workflow :=
  let seedVal := match seed with
    | none => drawn
    | some s => s
  [ (("load_unet"),
     { class_type := ("UNETLoader"),
       inputs := [ (("unet_name"), .str ("flux2_dev_fp8mixed.safetensors")),
                   (("weight_dtype"), .str ("fp8_e4m3fn")) ] }),
    (("load_clip"),
     { class_type := ("CLIPLoader"),
       inputs := [ (("clip_name"), .str ("mistral_3_small_flux2_fp8.safetensors")),
                   (("type"), .str ("flux2")) ] }),
    (("load_vae"),
     { class_type := ("VAELoader"),
       inputs := [ (("vae_name"), .str ("flux2-vae.safetensors")) ] }),
    (("clip_encode"),
     { class_type := ("CLIPTextEncode"),
       inputs := [ (("text"), .str prompt),
                   (("clip"), .ref ("load_clip") 0) ] }),
    (("clip_encode_negative"),
     { class_type := ("CLIPTextEncode"),
       inputs := [ (("text"), .str ("")),
                   (("clip"), .ref ("load_clip") 0) ] }),
    (("empty_latent"),
     { class_type := ("EmptySD3LatentImage"),
       inputs := [ (("width"), .nat width),
                   (("height"), .nat height),
                   (("batch_size"), .nat 1) ] }),
    (("sampler"),
     { class_type := ("KSampler"),
       inputs := [ (("model"), .ref ("load_unet") 0),
                   (("positive"), .ref ("clip_encode") 0),
                   (("negative"), .ref ("clip_encode_negative") 0),
                   (("latent_image"), .ref ("empty_latent") 0),
                   (("seed"), .nat seedVal),
                   (("steps"), .nat steps),
                   (("cfg"), .rat guidance),
                   (("sampler_name"), .str ("euler")),
                   (("scheduler"), .str ("simple")),
                   (("denoise"), .rat 1) ] }),
    (("vae_decode"),
     { class_type := ("VAEDecode"),
       inputs := [ (("samples"), .ref ("sampler") 0),
                   (("vae"), .ref ("load_vae") 0) ] }),
    (("save_image"),
     { class_type := ("SaveImage"),
       inputs := [ (("images"), .ref ("vae_decode") 0),
                   (("filename_prefix"), .str ("flux_gen")) ] }) ]

/-- Cached capability set, as probed by `has_node` in `generate_image`
(lines 402-403): whether the engine supports `UnetLoaderGGUF` and whether it
supports `ModelSamplingFlux`. -/
structure Caps where
  gguf : Bool
  sampling : Bool
deriving DecidableEq, Repr

/-- The three workflow variants of the builder. -/
inductive Variant where
  | gguf
  | standard
  | simple
deriving DecidableEq, Repr

/-- Variant picked by the `if has_gguf_loader / elif has_flux_sampling / else`
chain at lines 409-438. -/
def selectVariant (caps : Caps) : Variant :=
  if caps.gguf then .gguf else if caps.sampling then .standard else .simple

/-- The generation parameters of one `generate_image` call. -/
structure GenParams where
  prompt : String
  width : Nat
  height : Nat
  steps : Nat
  guidance : Rat
  seed : Option Nat
deriving DecidableEq, Repr

/-- Seed resolution at lines 397-399: a missing seed is drawn once, before
variant selection. -/
def resolveSeed (seed : Option Nat) (drawn : Nat) : Nat :=
  match seed with
  | none => drawn
  | some s => s

/-- Outcome of one `queue_prompt` call (lines 346-361): either the engine
returns a `prompt_id`, or the response carries an error field / the transport
fails, which `queue_prompt` raises as an exception. -/
inductive SubmitResult where
  | ok : String → SubmitResult
  | err : String → SubmitResult
deriving DecidableEq, Repr

/-- The engine's submission behaviour, as a function of the submitted graph.
Within one `generate_image` call each variant's graph is submitted at most
once, so a deterministic oracle is faithful. -/
abbrev SubmitFn := Workflow → SubmitResult

/-- The gguf builder applied to the parameters of a `generate_image` call,
with the already-resolved seed (the call sites at lines 410-417, 445-452
etc. all pass the concrete resolved seed). -/
def wfGguf (p : GenParams) (seedVal drawn : Nat) : Workflow :=
  create_flux2_workflow_gguf p.prompt p.width p.height p.steps p.guidance
    (some seedVal) drawn

/-- The standard builder applied to the parameters of a `generate_image`
call, with the already-resolved seed. -/
def wfStandard (p : GenParams) (seedVal drawn : Nat) : Workflow :=
  create_flux2_workflow p.prompt p.width p.height p.steps p.guidance
    (some seedVal) drawn

/-- The simple builder applied to the parameters of a `generate_image` call,
with the already-resolved seed. -/
def wfSimple (p : GenParams) (seedVal drawn : Nat) : Workflow :=
  create_flux2_workflow_simple p.prompt p.width p.height p.steps p.guidance
    (some seedVal) drawn

/-- Embedding of the submission phase of `generate_image` (lines 401-476):
variant selection followed by the try/except fallback cascade. Returns the
list of submission attempts actually made, in order (variant tag plus the
exact graph submitted), and either the accepted `prompt_id` with its graph
or the error message that propagates to the caller. Mirrors the source
exactly: after a failed gguf attempt, a failed standard attempt falls to
simple with no handler, so a failing simple attempt propagates its own
error; only when simple was the first variant does `raise e` re-raise the
original error. -/
def cascade (caps : Caps) (submit : SubmitFn) (p : GenParams) (drawn : Nat) :
    List (Variant × Workflow) × Except String (String × Workflow) :=
  let seedVal := resolveSeed p.seed drawn
  let first : Variant × Workflow :=
    if caps.gguf then (.gguf, wfGguf p seedVal drawn)
    else if caps.sampling then (.standard, wfStandard p seedVal drawn)
    else (.simple, wfSimple p seedVal drawn)
  match submit first.2 with
  | .ok pid => ([first], .ok (pid, first.2))
  | .err e =>
    if first.1 = Variant.gguf ∧ caps.sampling = true then
      match submit (wfStandard p seedVal drawn) with
      | .ok pid =>
        ([first, (.standard, wfStandard p seedVal drawn)],
         .ok (pid, wfStandard p seedVal drawn))
      | .err _ =>
        match submit (wfSimple p seedVal drawn) with
        | .ok pid =>
          ([first, (.standard, wfStandard p seedVal drawn),
            (.simple, wfSimple p seedVal drawn)],
           .ok (pid, wfSimple p seedVal drawn))
        | .err e2 =>
          ([first, (.standard, wfStandard p seedVal drawn),
            (.simple, wfSimple p seedVal drawn)],
           .error e2)
    else if first.1 = Variant.gguf ∨ first.1 = Variant.standard then
      match submit (wfSimple p seedVal drawn) with
      | .ok pid =>
        ([first, (.simple, wfSimple p seedVal drawn)],
         .ok (pid, wfSimple p seedVal drawn))
      | .err e2 =>
        ([first, (.simple, wfSimple p seedVal drawn)], .error e2)
    else
      ([first], .error e)

/-- One decoded message of the job's event stream (lines 481-499). Messages
of any other type, and non-text frames, are ignored by the loop. -/
inductive Event where
  | progress : Nat → Nat → Event
  | executing : Option String → Event
  | executionError : String → Event
  | other : String → Event
deriving DecidableEq, Repr

/-- Terminal state of the monitoring loop. `streamEnded` is the fall-through
when the socket closes without a terminal event; the code then proceeds to
the history fetch just as in the success case. -/
inductive MonitorOutcome where
  | succeeded
  | failed : String → MonitorOutcome
  | streamEnded
deriving DecidableEq, Repr

/-- Embedding of the progress-monitoring loop (lines 479-499): folds over the
event stream, collecting the (value, max) pairs passed to the progress
callback, until a terminal event. A terminal event leaves the rest of the
stream unconsumed (the connection is closed). -/
def runMonitor : List Event → List (Nat × Nat) × MonitorOutcome
  | [] => ([], .streamEnded)
  | .progress v m :: rest =>
    ((v, m) :: (runMonitor rest).1, (runMonitor rest).2)
  | .executing (some _) :: rest => runMonitor rest
  | .executing none :: _ => ([], .succeeded)
  | .executionError d :: _ => ([], .failed d)
  | .other _ :: rest => runMonitor rest

/-- One entry of a node output's `images` list; `type` is rendered `itype`
(`type` is reserved in Lean). `subfolder` is optional: the code reads it with
`.get("subfolder", "")`. -/
structure ImageInfo where
  filename : String
  subfolder : Option String
  itype : String
deriving DecidableEq, Repr

/-- A recorded node output, reduced to the only key the code inspects:
`some imgs` when the output dict has an `images` key, `none` otherwise. -/
abbrev NodeOutput := Option (List ImageInfo)

/-- The `/history/{prompt_id}` response: prompt id mapped to the recorded
outputs (node name to node output), insertion-ordered. -/
abbrev History := List (String × List (String × NodeOutput))

/-- Failure kinds of the result-fetching phase (lines 502-531):
`noHistory` is the raise at line 505 (id absent from history), `noImage` the
raise at line 531 (no output exposes an `images` key), and `indexError` the
Python `IndexError` that `output["images"][0]` raises when the exposed list
is empty. -/
inductive FetchError where
  | noHistory
  | noImage
  | indexError
deriving DecidableEq, Repr

/-- The metadata dict returned on success (lines 519-527). -/
structure GenMetadata where
  prompt : String
  width : Nat
  height : Nat
  steps : Nat
  guidance : Rat
  seed : Nat
  filename : String
deriving DecidableEq, Repr

/-- The `for node_id, output in outputs.items(): if "images" in output` scan
(line 510-511): first output carrying an `images` key, if any. -/
def findImages : List (String × NodeOutput) → Option (List ImageInfo)
  | [] => none
  | (_, some imgs) :: _ => some imgs
  | (_, none) :: rest => findImages rest

/-- The artifact downloader `get_image` as an oracle:
filename → subfolder → type → bytes. -/
abbrev GetImageFn := String → String → String → List Nat

/-- Embedding of the result-fetching phase of `generate_image`
(lines 502-531): history lookup, scan for an image-bearing output, download
of the first entry, and metadata assembly. -/
def fetchResult (history : History) (getImage : GetImageFn) (promptId : String)
    (p : GenParams) (seedVal : Nat) :
    Except FetchError (List Nat × GenMetadata) :=
  match List.lookup promptId history with
  | none => .error .noHistory
  | some outputs =>
    match findImages outputs with
    | none => .error .noImage
    | some [] => .error .indexError
    | some (info :: _) =>
      .ok (getImage info.filename (info.subfolder.getD ("")) info.itype,
           { prompt := p.prompt, width := p.width, height := p.height,
             steps := p.steps, guidance := p.guidance, seed := seedVal,
             filename := info.filename })

/-- The remote engine, as the oracles `generate_image` interacts with. -/
structure Engine where
  submit : SubmitFn
  events : List Event
  history : History
  getImage : GetImageFn

/-- Failure kinds of a whole `generate_image` call: a submission error that
exhausted the fallback cascade, an execution error from the event stream, or
a result-fetching failure. -/
inductive GenError where
  | submission : String → GenError
  | execution : String → GenError
  | fetch : FetchError → GenError
deriving DecidableEq, Repr

/-- Embedding of `generate_image` (lines 381-531): seed resolution, the
submission cascade, the monitoring loop, and the result fetch. Returns the
submission attempts made, the (value, max) pairs passed to the progress
callback, and the outcome. The monitor and fetch phases run only after an
accepted submission; a `failed` monitor outcome raises before any fetch, and
a closed stream falls through to the fetch like a success. -/
def generate_image (caps : Caps) (eng : Engine) (p : GenParams) (drawn : Nat) :
    List (Variant × Workflow) × List (Nat × Nat) ×
      Except GenError (List Nat × GenMetadata) :=
  let c := cascade caps eng.submit p drawn
  let rest : List (Nat × Nat) × Except GenError (List Nat × GenMetadata) :=
    match c.2 with
    | .error e => ([], .error (.submission e))
    | .ok (pid, _) =>
      let m := runMonitor eng.events
      match m.2 with
      | .failed d => (m.1, .error (.execution d))
      | _ =>
        match fetchResult eng.history eng.getImage pid p
            (resolveSeed p.seed drawn) with
        | .error fe => (m.1, .error (.fetch fe))
        | .ok r => (m.1, .ok r)
  (c.1, rest.1, rest.2)

/-- The cached node-type catalog, reduced to the membership structure the
code uses (`node_type in nodes`): the list of advertised type names. -/
abbrev Catalog := List String

/-- Embedding of `get_available_nodes` (lines 31-42) as a state transformer
on the `_available_nodes` cache. `fetch` is the outcome the `/object_info`
request would have at this call: on success the catalog is cached and
returned; on failure an empty catalog is returned and the cache is left
unset (the assignment inside the `try` block is never reached). -/
def get_available_nodes (cache : Option Catalog)
    (fetch : Except Unit Catalog) : Option Catalog × Catalog :=
  match cache with
  | some nodes => (some nodes, nodes)
  | none =>
    match fetch with
    | .ok nodes => (some nodes, nodes)
    | .error _ => (none, [])

/-- Embedding of `has_node` (lines 44-47): membership test against the
catalog `get_available_nodes` returns, threading the cache. -/
def has_node (cache : Option Catalog) (fetch : Except Unit Catalog)
    (node_type : String) : Option Catalog × Bool :=
  let r := get_available_nodes cache fetch
  (r.1, r.2.contains node_type)

/-- A trace of successive `get_available_nodes` calls on one client: one list
entry per call, holding the outcome the `/object_info` request would have if
it were issued during that call. Returns the final cache, the catalog each
call returned, and how many calls actually issued the request (a call served
from the cache does not). -/
def runGetNodes (cache : Option Catalog) :
    List (Except Unit Catalog) → Option Catalog × List Catalog × Nat
  | [] => (cache, [], 0)
  | f :: fs =>
    match cache with
    | some nodes =>
      let r := runGetNodes (some nodes) fs
      (r.1, nodes :: r.2.1, r.2.2)
    | none =>
      let c1 := get_available_nodes none f
      let r := runGetNodes c1.1 fs
      (r.1, c1.2 :: r.2.1, r.2.2 + 1)

/-- Node names of a workflow, in insertion order. -/
def nodeNames (w : Workflow) : List String :=
  w.map Prod.fst

/-- All reference inputs `(sourceNodeName, outputSlotIndex)` occurring in a
workflow. -/
def refsOf (w : Workflow) : List (String × Nat) :=
  w.flatMap (fun nd => nd.2.inputs.filterMap (fun inp =>
    match inp.2 with
    | .ref n i => some (n, i)
    | _ => none))

/-- Whether every reference input of the workflow names a node present as a
key of the same workflow. -/
def refsResolve (w : Workflow) : Bool :=
  (refsOf w).all (fun r => (nodeNames w).contains r.1)

/-- Names of the source nodes consumed by some reference input. -/
def consumedNames (w : Workflow) : List String :=
  (refsOf w).map Prod.fst

/-- Names of the workflow's nodes whose `class_type` is `SaveImage`. -/
def saveImageNames (w : Workflow) : List String :=
  (w.filter (fun nd => nd.2.class_type == ("SaveImage"))).map Prod.fst

/-- Names of the workflow's terminal nodes: those whose output no other node
consumes. -/
def unconsumedNames (w : Workflow) : List String :=
  (w.filter (fun nd => !((consumedNames w).contains nd.1))).map Prod.fst

/-- The `seed` input of the workflow's `sampler` node, when present. -/
def samplerSeed (w : Workflow) : Option InputVal :=
  match List.lookup ("sampler") w with
  | some nd => List.lookup ("seed") nd.inputs
  | none => none

/-- The builder that `generate_image` invokes for a given variant, with the
already-resolved seed. -/
def buildVariant (v : Variant) (p : GenParams) (seedVal drawn : Nat) : Workflow :=
  match v with
  | .gguf => wfGguf p seedVal drawn
  | .standard => wfStandard p seedVal drawn
  | .simple => wfSimple p seedVal drawn

/-- Concrete generation parameters used by witnesses and counterexamples. -/
def pW : GenParams :=
  { prompt := ("p"), width := 1024, height := 1024, steps := 20,
    guidance := (7/2 : Rat), seed := none }

/-- A submission oracle that rejects every variant with a distinct error
message, distinguishing the variants by the loader and sampling nodes they
contain. -/
def submitAllFail : SubmitFn := fun w =>
  if (nodeNames w).contains ("load_unet_gguf") then .err ("gguf error")
  else if (nodeNames w).contains ("model_sampling") then .err ("standard error")
  else .err ("simple error")

/-- An engine that accepts every submission and then reports an execution
error on the event stream after one progress event. -/
def engExecError : Engine :=
  { submit := fun _ => .ok ("job1"),
    events := [.progress 1 20, .executionError ("boom")],
    history := [],
    getImage := fun _ _ _ => [] }

/-- A concrete artifact reference used by witnesses. -/
def infoW : ImageInfo :=
  { filename := ("img.png"), subfolder := none, itype := ("output") }

/-- A history recording one job whose terminal node exposes one image. -/
def histW : History :=
  [(("job1"), [(("save_image"), some [infoW])])]

/-- A history recording one job whose terminal node exposes an empty image
list. -/
def histEmptyImages : History :=
  [(("job1"), [(("save_image"), (some [] : NodeOutput))])]

/-- A concrete downloader used by witnesses. -/
def getImageW : GetImageFn := fun _ _ _ => [9, 9]

/-- The attempts component of `generate_image` is exactly the attempts
component of its submission cascade. -/
lemma generate_image_attempts (caps : Caps) (eng : Engine) (p : GenParams)
    (drawn : Nat) :
    (generate_image caps eng p drawn).1 = (cascade caps eng.submit p drawn).1 :=
  rfl

/-- C1: for every cached capability set, one `generate_image` call performs
at most three submission attempts, the attempted variants occur strictly in
the priority order quantized then standard then simple (a sublist of that
order), and a variant disallowed by the capability set is skipped: standard
is never attempted when `ModelSamplingFlux` is unsupported, and quantized is
never attempted when `UnetLoaderGGUF` is unsupported. -/
theorem C1_fallback_cascade_bounded_ordered (caps : Caps) (eng : Engine)
    (p : GenParams) (drawn : Nat) :
    (((generate_image caps eng p drawn).1.map Prod.fst).length ≤ 3) ∧
    ((generate_image caps eng p drawn).1.map Prod.fst).Sublist
      [Variant.gguf, Variant.standard, Variant.simple] ∧
    (caps.sampling = false →
      Variant.standard ∉ (generate_image caps eng p drawn).1.map Prod.fst) ∧
    (caps.gguf = false →
      Variant.gguf ∉ (generate_image caps eng p drawn).1.map Prod.fst) := by
  rw [generate_image_attempts]
  rcases caps with ⟨g, s⟩
  cases g <;> cases s
  case true.true =>
    rcases h0 : eng.submit (wfGguf p (resolveSeed p.seed drawn) drawn) with pid | e
    · simp [cascade, h0]
    · rcases h1 : eng.submit (wfStandard p (resolveSeed p.seed drawn) drawn) with pid1 | e1
      · simp [cascade, h0, h1]
      · rcases h2 : eng.submit (wfSimple p (resolveSeed p.seed drawn) drawn) with pid2 | e2
        · simp [cascade, h0, h1, h2]
        · simp [cascade, h0, h1, h2]
  case true.false =>
    rcases h0 : eng.submit (wfGguf p (resolveSeed p.seed drawn) drawn) with pid | e
    · simp [cascade, h0]
    · rcases h2 : eng.submit (wfSimple p (resolveSeed p.seed drawn) drawn) with pid2 | e2
      · simp [cascade, h0, h2]
      · simp [cascade, h0, h2]
  case false.true =>
    rcases h0 : eng.submit (wfStandard p (resolveSeed p.seed drawn) drawn) with pid | e
    · simp [cascade, h0]
    · rcases h2 : eng.submit (wfSimple p (resolveSeed p.seed drawn) drawn) with pid2 | e2
      · simp [cascade, h0, h2]
      · simp [cascade, h0, h2]
  case false.false =>
    rcases h0 : eng.submit (wfSimple p (resolveSeed p.seed drawn) drawn) with pid | e
    · simp [cascade, h0]
    · simp [cascade, h0]

/-- C2: variant selection is a pure deterministic function of the capability
set — quantized when `UnetLoaderGGUF` is supported, else standard when
`ModelSamplingFlux` is supported, else simple — and the first submission
attempt of the cascade is exactly the builder output for the selected
variant. -/
theorem C2_variant_selection_function (caps : Caps) (submit : SubmitFn)
    (p : GenParams) (drawn : Nat) :
    (caps.gguf = true → selectVariant caps = Variant.gguf) ∧
    (caps.gguf = false → caps.sampling = true →
      selectVariant caps = Variant.standard) ∧
    (caps.gguf = false → caps.sampling = false →
      selectVariant caps = Variant.simple) ∧
    (cascade caps submit p drawn).1.head? =
      some (selectVariant caps,
        buildVariant (selectVariant caps) p (resolveSeed p.seed drawn) drawn) := by
  rcases caps with ⟨g, s⟩
  cases g <;> cases s
  case true.true =>
    refine ⟨fun _ => rfl, fun h => absurd h (by decide), fun h => absurd h (by decide), ?_⟩
    rcases h0 : submit (wfGguf p (resolveSeed p.seed drawn) drawn) with pid | e
    · simp [cascade, h0, selectVariant, buildVariant]
    · rcases h1 : submit (wfStandard p (resolveSeed p.seed drawn) drawn) with pid1 | e1
      · simp [cascade, h0, h1, selectVariant, buildVariant]
      · rcases h2 : submit (wfSimple p (resolveSeed p.seed drawn) drawn) with pid2 | e2
        · simp [cascade, h0, h1, h2, selectVariant, buildVariant]
        · simp [cascade, h0, h1, h2, selectVariant, buildVariant]
  case true.false =>
    refine ⟨fun _ => rfl, fun h => absurd h (by decide), fun h => absurd h (by decide), ?_⟩
    rcases h0 : submit (wfGguf p (resolveSeed p.seed drawn) drawn) with pid | e
    · simp [cascade, h0, selectVariant, buildVariant]
    · rcases h2 : submit (wfSimple p (resolveSeed p.seed drawn) drawn) with pid2 | e2
      · simp [cascade, h0, h2, selectVariant, buildVariant]
      · simp [cascade, h0, h2, selectVariant, buildVariant]
  case false.true =>
    refine ⟨fun h => absurd h (by decide), fun _ _ => rfl, fun _ h => absurd h (by decide), ?_⟩
    rcases h0 : submit (wfStandard p (resolveSeed p.seed drawn) drawn) with pid | e
    · simp [cascade, h0, selectVariant, buildVariant]
    · rcases h2 : submit (wfSimple p (resolveSeed p.seed drawn) drawn) with pid2 | e2
      · simp [cascade, h0, h2, selectVariant, buildVariant]
      · simp [cascade, h0, h2, selectVariant, buildVariant]
  case false.false =>
    refine ⟨fun h => absurd h (by decide), fun _ h => absurd h (by decide), fun _ _ => rfl, ?_⟩
    rcases h0 : submit (wfSimple p (resolveSeed p.seed drawn) drawn) with pid | e
    · simp [cascade, h0, selectVariant, buildVariant]
    · simp [cascade, h0, selectVariant, buildVariant]

/-- C3: once a submission has been accepted, an execution error reported on
the event stream is surfaced to the caller carrying the engine-provided
detail, and the set of submission attempts is exactly the cascade's — the
monitor outcome never triggers a rebuild or resubmission. -/
theorem C3_execution_error_surfaced_never_retried (caps : Caps) (eng : Engine)
    (p : GenParams) (drawn : Nat) (cb : List (Nat × Nat)) (d : String)
    (hok : (cascade caps eng.submit p drawn).2.isOk = true)
    (hmon : runMonitor eng.events = (cb, .failed d)) :
    (generate_image caps eng p drawn).2.2 = .error (.execution d) ∧
    (generate_image caps eng p drawn).1 = (cascade caps eng.submit p drawn).1 := by
  refine ⟨?_, rfl⟩
  rcases h : (cascade caps eng.submit p drawn).2 with e | ⟨pid, w⟩
  · rw [h] at hok
    simp [Except.isOk, Except.toBool] at hok
  · simp [generate_image, h, hmon]

/-- C3 witness: a concrete engine that accepts the submission and then
reports `execution_error` with detail `boom`; the call surfaces that detail
and makes exactly the cascade's submissions. -/
theorem C3_witness :
    (generate_image ⟨false, false⟩ engExecError pW 5).2.2 =
      .error (.execution ("boom")) ∧
    (generate_image ⟨false, false⟩ engExecError pW 5).1 =
      (cascade ⟨false, false⟩ engExecError.submit pW 5).1 :=
  C3_execution_error_surfaced_never_retried ⟨false, false⟩ engExecError pW 5
    [(1, 20)] ("boom") (by rfl) (by rfl)

/-- C4: the progress monitor processes each decoded event as the spec's state
machine prescribes — a progress event emits its value and max to the
callback and changes nothing else, an executing event with a non-null node
changes nothing, an executing event with node null terminates in the
succeeded state ignoring the rest of the stream, and an execution_error
event terminates in the failed state carrying the engine-provided detail,
ignoring the rest of the stream. -/
theorem C4_monitor_event_processing :
    (∀ (v m : Nat) (rest : List Event),
      runMonitor (.progress v m :: rest) =
        ((v, m) :: (runMonitor rest).1, (runMonitor rest).2)) ∧
    (∀ (n : String) (rest : List Event),
      runMonitor (.executing (some n) :: rest) = runMonitor rest) ∧
    (∀ rest : List Event,
      runMonitor (.executing none :: rest) = ([], .succeeded)) ∧
    (∀ (d : String) (rest : List Event),
      runMonitor (.executionError d :: rest) = ([], .failed d)) :=
  ⟨fun _ _ _ => rfl, fun _ _ => rfl, fun _ => rfl, fun _ _ => rfl⟩

/-- The first-image scan returns `none` exactly when no recorded node output
carries an `images` key. -/
lemma findImages_eq_none_iff (outputs : List (String × NodeOutput)) :
    findImages outputs = none ↔ ∀ o ∈ outputs, o.2 = none := by
  induction outputs with
  | nil => simp [findImages]
  | cons hd tl ih =>
    rcases hd with ⟨n, img⟩
    cases img <;> simp [findImages, ih]

/-- C5 counterexample: a history in which the job id is present and a node
output does expose an image list, but the list is empty: the fetch neither
returns an entry nor fails with a ResultMissing kind — `output["images"][0]`
raises an index error instead, contradicting the claim's "otherwise it
returns the first entry of the first node output that exposes an image
list". -/
theorem C5_counterexample :
    (List.lookup ("job1") histEmptyImages).isSome = true ∧
    findImages [(("save_image"), (some [] : NodeOutput))] = some [] ∧
    fetchResult histEmptyImages getImageW ("job1") pW 5 = .error .indexError :=
  ⟨rfl, rfl, rfl⟩

/-- C5 amended: result fetching fails with a ResultMissing kind exactly when
the job id is absent from the history (`noHistory`) or no recorded node
output exposes an image list (`noImage`); when the first exposed image list
is nonempty it returns that list's first entry, downloading its bytes and
echoing the input parameters plus the resolved filename in the metadata; an
empty exposed image list instead fails with an index error distinct from
ResultMissing. -/
theorem C5_fetch_result_characterization (history : History)
    (getImage : GetImageFn) (pid : String) (p : GenParams) (sv : Nat) :
    (fetchResult history getImage pid p sv = .error .noHistory ↔
      List.lookup pid history = none) ∧
    (∀ outputs, List.lookup pid history = some outputs →
      ((fetchResult history getImage pid p sv = .error .noImage ↔
          findImages outputs = none) ∧
       (findImages outputs = none ↔ ∀ o ∈ outputs, o.2 = none) ∧
       (findImages outputs = some [] →
          fetchResult history getImage pid p sv = .error .indexError) ∧
       (∀ info rest, findImages outputs = some (info :: rest) →
          fetchResult history getImage pid p sv =
            .ok (getImage info.filename (info.subfolder.getD ("")) info.itype,
                 { prompt := p.prompt, width := p.width, height := p.height,
                   steps := p.steps, guidance := p.guidance, seed := sv,
                   filename := info.filename })))) := by
  constructor
  · rcases h : List.lookup pid history with _ | outputs
    · simp [fetchResult, h]
    · simp only [fetchResult, h]
      rcases h2 : findImages outputs with _ | (_ | ⟨info, rest⟩) <;> simp [h2]
  · intro outputs h
    refine ⟨?_, findImages_eq_none_iff outputs, ?_, ?_⟩
    · simp only [fetchResult, h]
      rcases h2 : findImages outputs with _ | (_ | ⟨info, rest⟩) <;> simp [h2]
    · intro h2
      simp [fetchResult, h, h2]
    · intro info rest h2
      simp [fetchResult, h, h2]

/-- C5 witness: on a history that records the job with one image entry, the
fetch succeeds with that entry's bytes and the echoed metadata. -/
theorem C5_witness :
    fetchResult histW getImageW ("job1") pW 7 =
      .ok (getImageW infoW.filename (infoW.subfolder.getD ("")) infoW.itype,
           { prompt := pW.prompt, width := pW.width, height := pW.height,
             steps := pW.steps, guidance := pW.guidance, seed := 7,
             filename := infoW.filename }) :=
  ((C5_fetch_result_characterization histW getImageW ("job1") pW 7).2
    [(("save_image"), some [infoW])] rfl).2.2.2 infoW [] rfl

/-- C6: every workflow graph produced by any of the three builders, for all
parameter values, has exactly one `SaveImage` node, that node is the unique
node whose output no other node consumes (the unique terminal artifact
node), and every reference input names a node present as a key of the same
graph. -/
theorem C6_workflow_graph_invariants (prompt : String)
    (width height steps : Nat) (guidance : Rat) (seed : Option Nat)
    (drawn : Nat) :
    (saveImageNames (create_flux2_workflow prompt width height steps guidance
        seed drawn) = [("save_image")] ∧
     unconsumedNames (create_flux2_workflow prompt width height steps guidance
        seed drawn) = [("save_image")] ∧
     refsResolve (create_flux2_workflow prompt width height steps guidance
        seed drawn) = true) ∧
    (saveImageNames (create_flux2_workflow_gguf prompt width height steps
        guidance seed drawn) = [("save_image")] ∧
     unconsumedNames (create_flux2_workflow_gguf prompt width height steps
        guidance seed drawn) = [("save_image")] ∧
     refsResolve (create_flux2_workflow_gguf prompt width height steps
        guidance seed drawn) = true) ∧
    (saveImageNames (create_flux2_workflow_simple prompt width height steps
        guidance seed drawn) = [("save_image")] ∧
     unconsumedNames (create_flux2_workflow_simple prompt width height steps
        guidance seed drawn) = [("save_image")] ∧
     refsResolve (create_flux2_workflow_simple prompt width height steps
        guidance seed drawn) = true) :=
  ⟨⟨rfl, rfl, rfl⟩, ⟨rfl, rfl, rfl⟩, ⟨rfl, rfl, rfl⟩⟩

/-- C7 counterexample: with both capabilities present and every submission
failing, the three attempts fail with the errors gguf error, standard error,
simple error respectively, and the error surfaced to the caller is the
simple attempt's, not the original (first) attempt's — the claim's "the
original error is surfaced" is false on this input. -/
theorem C7_counterexample :
    ((cascade ⟨true, true⟩ submitAllFail pW 5).1.map
        (fun a => submitAllFail a.2)) =
      [.err ("gguf error"), .err ("standard error"), .err ("simple error")] ∧
    (cascade ⟨true, true⟩ submitAllFail pW 5).2 = .error ("simple error") ∧
    ("simple error" : String) ≠ ("gguf error") :=
  ⟨rfl, rfl, by decide⟩

/-- C7 amended: when every submission attempt of the fallback cascade fails,
no further fallback is attempted after the simple variant, and the error
surfaced to the caller is the one raised by the final simple-variant
attempt (which coincides with the original error only when simple was the
first and only variant attempted). -/
theorem C7_exhausted_cascade_surfaces_last_error (caps : Caps)
    (submit : SubmitFn) (p : GenParams) (drawn : Nat) (e : String)
    (h : (cascade caps submit p drawn).2 = .error e) :
    ∃ a, (cascade caps submit p drawn).1.getLast? = some a ∧
      submit a.2 = .err e ∧ a.1 = Variant.simple ∧
      a.2 = wfSimple p (resolveSeed p.seed drawn) drawn := by
  rcases caps with ⟨g, s⟩
  cases g <;> cases s
  case true.true =>
    rcases h0 : submit (wfGguf p (resolveSeed p.seed drawn) drawn) with pid | e0
    · simp [cascade, h0] at h
    · rcases h1 : submit (wfStandard p (resolveSeed p.seed drawn) drawn) with pid1 | e1
      · simp [cascade, h0, h1] at h
      · rcases h2 : submit (wfSimple p (resolveSeed p.seed drawn) drawn) with pid2 | e2
        · simp [cascade, h0, h1, h2] at h
        · simp [cascade, h0, h1, h2] at h
          subst h
          exact ⟨(.simple, wfSimple p (resolveSeed p.seed drawn) drawn),
            by simp [cascade, h0, h1, h2, List.getLast?], h2, rfl, rfl⟩
  case true.false =>
    rcases h0 : submit (wfGguf p (resolveSeed p.seed drawn) drawn) with pid | e0
    · simp [cascade, h0] at h
    · rcases h2 : submit (wfSimple p (resolveSeed p.seed drawn) drawn) with pid2 | e2
      · simp [cascade, h0, h2] at h
      · simp [cascade, h0, h2] at h
        subst h
        exact ⟨(.simple, wfSimple p (resolveSeed p.seed drawn) drawn),
          by simp [cascade, h0, h2, List.getLast?], h2, rfl, rfl⟩
  case false.true =>
    rcases h0 : submit (wfStandard p (resolveSeed p.seed drawn) drawn) with pid | e0
    · simp [cascade, h0] at h
    · rcases h2 : submit (wfSimple p (resolveSeed p.seed drawn) drawn) with pid2 | e2
      · simp [cascade, h0, h2] at h
      · simp [cascade, h0, h2] at h
        subst h
        exact ⟨(.simple, wfSimple p (resolveSeed p.seed drawn) drawn),
          by simp [cascade, h0, h2, List.getLast?], h2, rfl, rfl⟩
  case false.false =>
    rcases h0 : submit (wfSimple p (resolveSeed p.seed drawn) drawn) with pid | e0
    · simp [cascade, h0] at h
    · simp [cascade, h0] at h
      subst h
      exact ⟨(.simple, wfSimple p (resolveSeed p.seed drawn) drawn),
        by simp [cascade, h0, List.getLast?], h0, rfl, rfl⟩

/-- C7 witness: with both capabilities present and every submission failing,
the surfaced error is the last (simple) attempt's error. -/
theorem C7_witness :
    ∃ a, (cascade ⟨true, true⟩ submitAllFail pW 5).1.getLast? = some a ∧
      submitAllFail a.2 = .err ("simple error") ∧ a.1 = Variant.simple ∧
      a.2 = wfSimple pW (resolveSeed pW.seed 5) 5 :=
  C7_exhausted_cascade_surfaces_last_error ⟨true, true⟩ submitAllFail pW 5
    ("simple error") (by rfl)

/-- Calls served from a populated cache issue no fetch and all return the
cached catalog. -/
lemma runGetNodes_cached (nodes : Catalog)
    (outcomes : List (Except Unit Catalog)) :
    runGetNodes (some nodes) outcomes =
      (some nodes, outcomes.map (fun _ => nodes), 0) := by
  induction outcomes with
  | nil => rfl
  | cons f fs ih => simp [runGetNodes, ih]

/-- C8 counterexample: when the first fetch fails, the cache stays unset and
a second call issues a second fetch — two fetches on one client instance,
contradicting the claim's "fetched from the engine at most once per client
instance". Both calls still return the empty catalog without raising. -/
theorem C8_counterexample :
    (runGetNodes none [.error (), .error ()]).2.2 = 2 ∧
    ¬((2 : Nat) ≤ 1) ∧
    (runGetNodes none [.error (), .error ()]).2.1 = [[], []] ∧
    (runGetNodes none [.error (), .error ()]).1 = none :=
  ⟨rfl, by decide, rfl, rfl⟩

/-- C8 amended: a call served from a populated cache returns the cached
catalog without fetching (and once a fetch succeeds all later calls do so);
a failed fetch returns an empty catalog to the caller instead of raising,
leaves the cache unset — so the request is re-issued by a later call — and
makes every capability membership test answer false. -/
theorem C8_catalog_caching (nodes : Catalog) (f : Except Unit Catalog)
    (nt : String) (outcomes : List (Except Unit Catalog)) :
    get_available_nodes (some nodes) f = (some nodes, nodes) ∧
    get_available_nodes none (.ok nodes) = (some nodes, nodes) ∧
    get_available_nodes none (.error ()) = (none, []) ∧
    (has_node none (.error ()) nt).2 = false ∧
    (runGetNodes (some nodes) outcomes).2.2 = 0 ∧
    (runGetNodes (some nodes) outcomes).2.1 = outcomes.map (fun _ => nodes) := by
  refine ⟨rfl, rfl, rfl, rfl, ?_, ?_⟩ <;> simp [runGetNodes_cached]

/-- C9: with an explicit seed and identical parameters, each builder is a
deterministic function of its parameters alone — two invocations that would
draw different random values produce structurally identical graphs. -/
theorem C9_builders_deterministic_with_seed (prompt : String)
    (width height steps : Nat) (guidance : Rat) (s d1 d2 : Nat) :
    create_flux2_workflow prompt width height steps guidance (some s) d1 =
      create_flux2_workflow prompt width height steps guidance (some s) d2 ∧
    create_flux2_workflow_gguf prompt width height steps guidance (some s) d1 =
      create_flux2_workflow_gguf prompt width height steps guidance (some s) d2 ∧
    create_flux2_workflow_simple prompt width height steps guidance (some s) d1 =
      create_flux2_workflow_simple prompt width height steps guidance (some s) d2 :=
  ⟨rfl, rfl, rfl⟩

/-- C10: within one `generate_image` call, every graph built and submitted by
the fallback cascade carries the same sampler seed, namely the seed resolved
once before variant selection (the caller's seed, or the single drawn value
when the caller left it unset). -/
theorem C10_single_seed_across_cascade (caps : Caps) (eng : Engine)
    (p : GenParams) (drawn : Nat) :
    ∀ a ∈ (generate_image caps eng p drawn).1,
      samplerSeed a.2 = some (.nat (resolveSeed p.seed drawn)) := by
  rw [generate_image_attempts]
  intro a ha
  rcases caps with ⟨g, s⟩
  cases g <;> cases s
  case true.true =>
    rcases h0 : eng.submit (wfGguf p (resolveSeed p.seed drawn) drawn) with pid | e
    · simp [cascade, h0] at ha
      subst ha
      rfl
    · rcases h1 : eng.submit (wfStandard p (resolveSeed p.seed drawn) drawn) with pid1 | e1
      · simp [cascade, h0, h1] at ha
        rcases ha with ha | ha <;> (subst ha; rfl)
      · rcases h2 : eng.submit (wfSimple p (resolveSeed p.seed drawn) drawn) with pid2 | e2
        · simp [cascade, h0, h1, h2] at ha
          rcases ha with ha | ha | ha <;> (subst ha; rfl)
        · simp [cascade, h0, h1, h2] at ha
          rcases ha with ha | ha | ha <;> (subst ha; rfl)
  case true.false =>
    rcases h0 : eng.submit (wfGguf p (resolveSeed p.seed drawn) drawn) with pid | e
    · simp [cascade, h0] at ha
      subst ha
      rfl
    · rcases h2 : eng.submit (wfSimple p (resolveSeed p.seed drawn) drawn) with pid2 | e2
      · simp [cascade, h0, h2] at ha
        rcases ha with ha | ha <;> (subst ha; rfl)
      · simp [cascade, h0, h2] at ha
        rcases ha with ha | ha <;> (subst ha; rfl)
  case false.true =>
    rcases h0 : eng.submit (wfStandard p (resolveSeed p.seed drawn) drawn) with pid | e
    · simp [cascade, h0] at ha
      subst ha
      rfl
    · rcases h2 : eng.submit (wfSimple p (resolveSeed p.seed drawn) drawn) with pid2 | e2
      · simp [cascade, h0, h2] at ha
        rcases ha with ha | ha <;> (subst ha; rfl)
      · simp [cascade, h0, h2] at ha
        rcases ha with ha | ha <;> (subst ha; rfl)
  case false.false =>
    rcases h0 : eng.submit (wfSimple p (resolveSeed p.seed drawn) drawn) with pid | e
    · simp [cascade, h0] at ha
      subst ha
      rfl
    · simp [cascade, h0] at ha
      subst ha
      rfl

/-- C10 witness: on a concrete call whose only attempt is the simple
variant, the attempted graph's sampler seed is the once-resolved seed. -/
theorem C10_witness :
    samplerSeed ((Variant.simple,
      wfSimple pW (resolveSeed pW.seed 5) 5) : Variant × Workflow).2 =
      some (.nat (resolveSeed pW.seed 5)) :=
  C10_single_seed_across_cascade ⟨false, false⟩ engExecError pW 5
    (Variant.simple, wfSimple pW (resolveSeed pW.seed 5) 5)
    (List.mem_singleton.mpr rfl)

end FluxStudio

